import Mathlib

/-!
Verification of the practice-problem generator in `src/main.py`.

The development shallowly embeds the parts of the program that the
claims are about:

* the Python value domain reachable by the tool's expression
  sublanguage, together with Python's `==` on it (`pyEq`);
* the expression parser and evaluator behind `eval`/`compile`
  (`safe_eval`, `safe_compile`), restricted to the expression grammar
  the corpus and the answers use (int literals, string literals,
  names, lists, sets, dicts, unary minus, `+ - *`, `==`, calls to
  `range`, and list comprehensions);
* the `check_answer` methods of the problem classes;
* the `string.Formatter`-based template instantiation engine
  (`instantiate`).

Python's built-in `eval`/`compile` and `string.Formatter.parse` are
modelled directly; the model replaces the global `random` stream by an
explicit tape of naturals (`random.choice(l)` becomes "take the next
tape entry `t` and pick `l[t % len l]`"), and guards the unbounded
`while`/retry loop of `instantiate` with explicit fuel.
-/

namespace Aylip

/-- The brace characters, by code point. -/
def lbrace : Char := Char.ofNat 123

def rbrace : Char := Char.ofNat 125

/-- The two Python quote characters, by code point. -/
def squote : Char := Char.ofNat 39

def dquote : Char := Char.ofNat 34

/-- Python values producible by the tool's expression sublanguage.
`builtin` stands for a named built-in function object (only `range`
is ever reachable). -/
inductive Value where
  | int (n : Int)
  | str (s : String)
  | bool (b : Bool)
  | vnone
  | list (elts : List Value)
  | set (elts : List Value)
  | dict (pairs : List (Value × Value))
  | builtin (id : String)

/-- Size of a value, used only to compute sufficient fuel for `pyEqF`. -/
def vsize : Value → Nat
  | .int _ => 1
  | .str _ => 1
  | .bool _ => 1
  | .vnone => 1
  | .builtin _ => 1
  | .list l => vsizeList l + 1
  | .set l => vsizeList l + 1
  | .dict ps => vsizePairs ps + 1
where
  vsizeList : List Value → Nat
    | [] => 1
    | v :: vs => vsize v + vsizeList vs + 1
  vsizePairs : List (Value × Value) → Nat
    | [] => 1
    | (k, v) :: rest => vsize k + vsize v + vsizePairs rest + 1

example : vsize (.list [.int 1]) = vsize (.int 1) + 1 + 1 + 1 := rfl

/-!
Python `==` on `Value`, written with explicit fuel so that it is
structurally recursive (the wrapper `pyEq` supplies sufficient fuel).
Numbers and booleans compare by numeric value (`True == 1`), lists
compare pointwise, sets and dicts compare by mutual membership, and
values of unrelated kinds are unequal.  Exhausted fuel gives `false`;
the wrapper's fuel strictly dominates the recursion depth, so that
case is never reached from `pyEq`.
-/
mutual

def pyEqF : Nat → Value → Value → Bool
  | 0, _, _ => false
  | _+1, .int a, .int b => a == b
  | _+1, .int a, .bool b => a == (if b then (1 : Int) else 0)
  | _+1, .bool a, .int b => (if a then (1 : Int) else 0) == b
  | _+1, .bool a, .bool b => a == b
  | _+1, .str a, .str b => a == b
  | _+1, .vnone, .vnone => true
  | _+1, .builtin a, .builtin b => a == b
  | f+1, .list a, .list b => pyListEqF f a b
  | f+1, .set a, .set b => pySubF f a b && pySubF f b a
  | f+1, .dict a, .dict b => pyDictSubF f a b && pyDictSubF f b a
  | _+1, _, _ => false

def pyListEqF : Nat → List Value → List Value → Bool
  | 0, _, _ => false
  | _+1, [], [] => true
  | f+1, x :: xs, y :: ys => pyEqF f x y && pyListEqF f xs ys
  | _+1, _, _ => false

def pyMemF : Nat → Value → List Value → Bool
  | 0, _, _ => false
  | _+1, _, [] => false
  | f+1, v, x :: xs => pyEqF f v x || pyMemF f v xs

def pySubF : Nat → List Value → List Value → Bool
  | 0, _, _ => false
  | _+1, [], _ => true
  | f+1, x :: xs, ys => pyMemF f x ys && pySubF f xs ys

def pyPairMemF : Nat → Value → Value → List (Value × Value) → Bool
  | 0, _, _, _ => false
  | _+1, _, _, [] => false
  | f+1, k, v, (k2, v2) :: rest => (pyEqF f k k2 && pyEqF f v v2) || pyPairMemF f k v rest

def pyDictSubF : Nat → List (Value × Value) → List (Value × Value) → Bool
  | 0, _, _ => false
  | _+1, [], _ => true
  | f+1, (k, v) :: rest, b => pyPairMemF f k v b && pyDictSubF f rest b

end

/-- Python `==` on values (the container equality semantics that the
`check_answer` methods rely on). -/
def pyEq (a b : Value) : Bool := pyEqF (vsize a + vsize b) a b

example : pyEq (.int 3) (.int 3) = true := by decide
example : pyEq (.int 3) (.int 4) = false := by decide
example : pyEq (.bool true) (.int 1) = true := by decide
example : pyEq (.list [.int 1, .int 2]) (.list [.int 1, .int 2]) = true := by decide
example : pyEq (.list [.int 1, .int 2]) (.list [.int 2, .int 1]) = false := by decide
example : pyEq (.set [.int 1, .int 2]) (.set [.int 2, .int 1]) = true := by decide
example : pyEq (.dict [(.str "a", .int 1)]) (.dict [(.str "a", .int 1)]) = true := by decide
example : pyEq (.dict [(.str "a", .int 1)]) (.dict [(.str "a", .int 2)]) = false := by decide

/-- Evaluation failures, mirroring the exception kinds `eval` can
raise on this sublanguage; `fuelOut` is the model's stand-in for
resource exhaustion (e.g. `RuntimeError` on deep recursion), which
`safe_eval` also catches.  The exact kind is never inspected by the
program: exceptions never compare equal to values. -/
inductive Err where
  | syntaxError
  | nameError
  | typeError
  | valueError
  | fuelOut
deriving DecidableEq

/-- Unary operators of the grammar (`ast.USub`). -/
inductive UOp where
  | usub
deriving DecidableEq

/-- Binary operators of the grammar. -/
inductive BOp where
  | add
  | sub
  | mul
deriving DecidableEq

/-- Comparison operators of the grammar (`ast.Eq`). -/
inductive COp where
  | eq
deriving DecidableEq

/-- The AST of the supported expression grammar, mirroring the
`ast` nodes the program inspects: `Num`, `Str`, `Name` (Python 2
spells `True`/`False` as `Name` nodes), `List`, `Set`, `Dict`,
`UnaryOp`, `BinOp`, `Compare` (single comparator), `Call`, and
`ListComp`.  A generator clause is a triple
(target name, iterated expression, `if` conditions). -/
inductive PyExpr where
  | num (n : Int)
  | strE (s : String)
  | name (id : String)
  | listE (elts : List PyExpr)
  | setE (elts : List PyExpr)
  | dictE (pairs : List (PyExpr × PyExpr))
  | unaryOp (op : UOp) (operand : PyExpr)
  | binOp (op : BOp) (l r : PyExpr)
  | cmpE (op : COp) (l r : PyExpr)
  | call (fn : PyExpr) (args : List PyExpr)
  | listComp (elt : PyExpr) (gens : List (String × PyExpr × List PyExpr))

/-! ### Character-level scanning helpers -/

def isDigitC (c : Char) : Bool := c.isDigit

def isIdentStart (c : Char) : Bool := c.isAlpha || c = '_'

def isIdentChar (c : Char) : Bool := c.isAlphanum || c = '_'

def isSpaceC (c : Char) : Bool := c = ' ' || c = '\t' || c = '\n' || c = '\r'

/-- Drop leading whitespace. -/
def ws : List Char → List Char
  | [] => []
  | c :: cs => if isSpaceC c then ws cs else c :: cs

/-- Decimal value of a digit run. -/
def numVal (l : List Char) : Nat := l.foldl (fun a c => a * 10 + (c.toNat - 48)) 0

/-- An octal digit (`0`-`7`). -/
def isOctC (c : Char) : Bool := isDigitC c && c.toNat ≤ 55

/-- Octal value of a digit run. -/
def octVal (l : List Char) : Nat := l.foldl (fun a c => a * 8 + (c.toNat - 48)) 0

/-- Words that are Python keywords relevant to this grammar; they can
never be parsed as a `Name` atom. -/
def reservedWords : List String :=
  ["for", "in", "if", "else", "and", "or", "not", "lambda", "is"]

/-- If `l` starts with the keyword `kw` followed by a non-identifier
character (or the end), return the rest, else `none`. -/
def keywordAt (kw : List Char) (l : List Char) : Option (List Char) :=
  if l.take kw.length = kw then
    match l.drop kw.length with
    | [] => some []
    | c :: cs => if isIdentChar c then none else some (c :: cs)
  else none

/-- Scan a string literal body up to the closing quote `q`
(escape sequences are not part of the modelled grammar). -/
def scanStr (q : Char) : List Char → Option (List Char × List Char)
  | [] => none
  | c :: cs =>
    if c = q then some ([], cs)
    else (scanStr q cs).map (fun p => (c :: p.1, p.2))

/-- Read an identifier that is not a reserved word. -/
def identAt (l : List Char) : Option (String × List Char) :=
  match l with
  | [] => none
  | c :: _ =>
    if isIdentStart c then
      let id := String.mk (l.takeWhile isIdentChar)
      if reservedWords.contains id then none
      else some (id, l.dropWhile isIdentChar)
    else none

/-!
### The expression parser

A fueled recursive-descent parser for the expression sublanguage,
producing the same trees `compile(s, ..., ast.PyCF_ONLY_AST)` yields
on that sublanguage (in particular a negated literal parses as
`UnaryOp(USub, Num(...))`, and `True` parses as `Name('True')`).
Each function consumes one unit of fuel per call; `parseFuel` below
supplies enough for any input.  Grammar notes: string literals have
no escape sequences; integer literals follow CPython 2's lexer — a
digit run is decimal, except that a multi-digit run starting with
`0` is an octal literal and a digit `8` or `9` inside such a run is
a `SyntaxError` (hex, long and float literals are outside the
subset); comparisons are the single operator `==`, and only list
comprehensions (not set/dict comprehensions) are recognised —
candidate strings outside the subset parse to `none`, which
`safe_compile` maps to the sentinel.
-/
mutual

def parseExprP : Nat → List Char → Option (PyExpr × List Char)
  | 0, _ => none
  | f+1, l => do
    let (a, l1) ← parseAddP f l
    match ws l1 with
    | '=' :: '=' :: rest => do
      let (b, l2) ← parseAddP f rest
      some (.cmpE .eq a b, l2)
    | _ => some (a, l1)

def parseAddP : Nat → List Char → Option (PyExpr × List Char)
  | 0, _ => none
  | f+1, l => do
    let (a, l1) ← parseMulP f l
    parseAddLoop f a l1

def parseAddLoop : Nat → PyExpr → List Char → Option (PyExpr × List Char)
  | 0, _, _ => none
  | f+1, a, l =>
    match ws l with
    | '+' :: rest => do
      let (b, l2) ← parseMulP f rest
      parseAddLoop f (.binOp .add a b) l2
    | '-' :: rest => do
      let (b, l2) ← parseMulP f rest
      parseAddLoop f (.binOp .sub a b) l2
    | _ => some (a, l)

def parseMulP : Nat → List Char → Option (PyExpr × List Char)
  | 0, _ => none
  | f+1, l => do
    let (a, l1) ← parseUnaryP f l
    parseMulLoop f a l1

def parseMulLoop : Nat → PyExpr → List Char → Option (PyExpr × List Char)
  | 0, _, _ => none
  | f+1, a, l =>
    match ws l with
    | '*' :: rest => do
      let (b, l2) ← parseUnaryP f rest
      parseMulLoop f (.binOp .mul a b) l2
    | _ => some (a, l)

def parseUnaryP : Nat → List Char → Option (PyExpr × List Char)
  | 0, _ => none
  | f+1, l =>
    match ws l with
    | '-' :: rest => (parseUnaryP f rest).map (fun p => (.unaryOp .usub p.1, p.2))
    | _ => parsePostP f l

def parsePostP : Nat → List Char → Option (PyExpr × List Char)
  | 0, _ => none
  | f+1, l => do
    let (a, l1) ← parseAtomP f l
    parseCallLoop f a l1

def parseCallLoop : Nat → PyExpr → List Char → Option (PyExpr × List Char)
  | 0, _, _ => none
  | f+1, a, l =>
    match ws l with
    | '(' :: rest => do
      let (args, l2) ← parseArgsP f rest
      parseCallLoop f (.call a args) l2
    | _ => some (a, l)

def parseArgsP : Nat → List Char → Option (List PyExpr × List Char)
  | 0, _ => none
  | f+1, l =>
    match ws l with
    | ')' :: rest => some ([], rest)
    | l' => do
      let (e, l1) ← parseExprP f l'
      parseArgsRest f [e] l1

def parseArgsRest : Nat → List PyExpr → List Char → Option (List PyExpr × List Char)
  | 0, _, _ => none
  | f+1, acc, l =>
    match ws l with
    | ',' :: rest => do
      let (e, l2) ← parseExprP f rest
      parseArgsRest f (acc ++ [e]) l2
    | ')' :: rest => some (acc, rest)
    | _ => none

def parseAtomP : Nat → List Char → Option (PyExpr × List Char)
  | 0, _ => none
  | f+1, l0 =>
    match ws l0 with
    | [] => none
    | c :: rest =>
      if isDigitC c then
        let digits := (c :: rest).takeWhile isDigitC
        let rest2 := (c :: rest).dropWhile isDigitC
        if c = '0' then
          if digits.length = 1 then some (.num 0, rest2)
          else if digits.all isOctC then some (.num (Int.ofNat (octVal digits)), rest2)
          else none
        else some (.num (Int.ofNat (numVal digits)), rest2)
      else if c = squote || c = dquote then
        (scanStr c rest).map (fun p => (.strE (String.mk p.1), p.2))
      else if c = '[' then parseListP f rest
      else if c = lbrace then parseBraceP f rest
      else if c = '(' then do
        let (e, l1) ← parseExprP f rest
        match ws l1 with
        | ')' :: l2 => some (e, l2)
        | _ => none
      else
        match identAt (c :: rest) with
        | some (id, rest2) => some (.name id, rest2)
        | none => none

def parseListP : Nat → List Char → Option (PyExpr × List Char)
  | 0, _ => none
  | f+1, l =>
    match ws l with
    | ']' :: rest => some (.listE [], rest)
    | l' => do
      let (e1, l1) ← parseExprP f l'
      match keywordAt "for".data (ws l1) with
      | some rest => do
        let (gens, l2) ← parseGensP f rest
        match ws l2 with
        | ']' :: l3 => some (.listComp e1 gens, l3)
        | _ => none
      | none => (parseElemsP f ']' [e1] l1).map (fun p => (.listE p.1, p.2))

def parseElemsP : Nat → Char → List PyExpr → List Char → Option (List PyExpr × List Char)
  | 0, _, _, _ => none
  | f+1, close, acc, l =>
    match ws l with
    | ',' :: rest => do
      let (e, l2) ← parseExprP f rest
      parseElemsP f close (acc ++ [e]) l2
    | c :: rest => if c = close then some (acc, rest) else none
    | [] => none

def parseBraceP : Nat → List Char → Option (PyExpr × List Char)
  | 0, _ => none
  | f+1, l =>
    match ws l with
    | [] => none
    | c :: rest =>
      if c = rbrace then some (.dictE [], rest)
      else do
        let (e1, l1) ← parseExprP f (c :: rest)
        match ws l1 with
        | ':' :: rest2 => do
          let (v1, l2) ← parseExprP f rest2
          parsePairsP f [(e1, v1)] l2
        | _ =>
          (parseElemsP f rbrace [e1] l1).map (fun p => (.setE p.1, p.2))

def parsePairsP : Nat → List (PyExpr × PyExpr) → List Char → Option (PyExpr × List Char)
  | 0, _, _ => none
  | f+1, acc, l =>
    match ws l with
    | ',' :: rest => do
      let (k, l1) ← parseExprP f rest
      match ws l1 with
      | ':' :: rest2 => do
        let (v, l2) ← parseExprP f rest2
        parsePairsP f (acc ++ [(k, v)]) l2
      | _ => none
    | c :: rest => if c = rbrace then some (.dictE acc, rest) else none
    | [] => none

def parseGensP : Nat → List Char → Option (List (String × PyExpr × List PyExpr) × List Char)
  | 0, _ => none
  | f+1, l => do
    let (tgt, l1) ← identAt (ws l)
    let rest ← keywordAt "in".data (ws l1)
    let (it, l2) ← parseExprP f rest
    let (ifs, l3) ← parseIfsP f [] l2
    match keywordAt "for".data (ws l3) with
    | some rest2 => do
      let (gens, l4) ← parseGensP f rest2
      some ((tgt, it, ifs) :: gens, l4)
    | none => some ([(tgt, it, ifs)], l3)

def parseIfsP : Nat → List PyExpr → List Char → Option (List PyExpr × List Char)
  | 0, _, _ => none
  | f+1, acc, l =>
    match keywordAt "if".data (ws l) with
    | some rest => do
      let (c, l2) ← parseExprP f rest
      parseIfsP f (acc ++ [c]) l2
    | none => some (acc, l)

end

/-- Fuel that dominates the parser's call depth on input `l`: each
character consumed costs at most a constant number of fuel units. -/
def parseFuel (l : List Char) : Nat := 8 * l.length + 8

/-- Parse a complete expression string, Python's `eval`-mode parse:
the whole input (up to trailing whitespace) must form one expression. -/
def parseFull (s : String) : Option PyExpr :=
  match parseExprP (parseFuel s.data) s.data with
  | some (e, rest) => if ws rest = [] then some e else none
  | none => none

example : parseFull "5" = some (.num 5) := rfl
example : parseFull "-3" = some (.unaryOp .usub (.num 3)) := rfl
example : parseFull "2+3" = some (.binOp .add (.num 2) (.num 3)) := rfl
example : parseFull "True" = some (.name "True") := rfl
example : parseFull "1==1" = some (.cmpE .eq (.num 1) (.num 1)) := rfl
example : parseFull "[1, 2]" = some (.listE [.num 1, .num 2]) := rfl
example : parseFull "[1,2" = none := rfl
example : parseFull "" = none := rfl
example : parseFull "range(3)" = some (.call (.name "range") [.num 3]) := rfl
example : parseFull "[x for x in range(3)]" =
    some (.listComp (.name "x") [("x", .call (.name "range") [.num 3], [])]) := rfl
example : parseFull "[x for x in [0,1,2]]" =
    some (.listComp (.name "x") [("x", .listE [.num 0, .num 1, .num 2], [])]) := rfl

/-!
### The expression evaluator

A fueled evaluator for the parsed sublanguage, modelling the
outcomes of `eval` that `except Exception` can catch: a value, or an
`Exception` represented by `Err`.  The names it resolves are the
comprehension-bound variables plus `True`/`False`/`None`/`range`;
the `BaseException`-raising site builtins `exit`/`quit`, through
which an exception can escape the `except Exception` boundary, are
modelled by the extended evaluator `evalX` further below.
-/

/-- Environment of comprehension-bound names. -/
def lookupEnv : List (String × Value) → String → Option Value
  | [], _ => none
  | (k, v) :: rest, id => if k = id then some v else lookupEnv rest id

/-- Numeric coercion used by Python's arithmetic: ints are themselves,
booleans coerce (`True` is `1`), nothing else is a number. -/
def toIntV : Value → Option Int
  | .int n => some n
  | .bool b => some (if b then 1 else 0)
  | _ => none

/-- Python `+`, `-`, `*` on the reachable values: numbers add,
subtract, multiply; `+` also concatenates strings and lists;
anything else is a `TypeError`. -/
def binOpV : BOp → Value → Value → Except Err Value
  | .add, .str a, .str b => .ok (.str (a ++ b))
  | .add, .list a, .list b => .ok (.list (a ++ b))
  | op, a, b =>
    match toIntV a, toIntV b with
    | some x, some y =>
      match op with
      | .add => .ok (.int (x + y))
      | .sub => .ok (.int (x - y))
      | .mul => .ok (.int (x * y))
    | _, _ => .error .typeError

/-- Python 2's `range` builtin: it returns a plain list of ints
(one or two arguments are modelled; `range(3) == [0, 1, 2]`). -/
def rangeV : List Value → Except Err Value
  | [a] =>
    match toIntV a with
    | some n => .ok (.list ((List.range n.toNat).map (fun i => .int (Int.ofNat i))))
    | none => .error .typeError
  | [a, b] =>
    match toIntV a, toIntV b with
    | some x, some y => .ok (.list ((List.range (y - x).toNat).map (fun i => .int (x + Int.ofNat i))))
    | _, _ => .error .typeError
  | _ => .error .typeError

/-- Python truthiness of the reachable values. -/
def truthy : Value → Bool
  | .int n => n != 0
  | .str s => s != ""
  | .bool b => b
  | .vnone => false
  | .list l => !l.isEmpty
  | .set l => !l.isEmpty
  | .dict l => !l.isEmpty
  | .builtin _ => true

/-- Membership in a list of values under Python equality. -/
def pyMemV (v : Value) (l : List Value) : Bool := l.any (fun x => pyEq v x)

/-- Set construction: first-wins deduplication under `pyEq`, as a
Python set literal builds its hash set. -/
def dedupF : List Value → List Value
  | [] => []
  | v :: vs => if pyMemV v (dedupF vs) then dedupF vs else v :: dedupF vs

/-- Insert a key/value pair into a dict, Python style: an existing
equal key keeps its position (and its original key object) but takes
the new value; a new key is appended. -/
def dictInsert (k v : Value) : List (Value × Value) → List (Value × Value)
  | [] => [(k, v)]
  | (k0, v0) :: rest => if pyEq k k0 then (k0, v) :: rest else (k0, v0) :: dictInsert k v rest

/-- Build a dict from the evaluated pairs of a dict literal
(later occurrences of an equal key win). -/
def buildDict (kvs : List (Value × Value)) : List (Value × Value) :=
  kvs.foldl (fun acc p => dictInsert p.1 p.2 acc) []

/-- The values an expression can iterate over (`for x in e`): lists
yield their elements, strings their characters, sets their (deduped)
elements, dicts their keys; anything else is a `TypeError`. -/
def iterOf : Value → Except Err (List Value)
  | .list l => .ok l
  | .str s => .ok (s.data.map (fun c => .str (String.mk [c])))
  | .set l => .ok l
  | .dict ps => .ok (ps.map (fun p => p.1))
  | _ => .error .typeError

mutual

def evalE : Nat → List (String × Value) → PyExpr → Except Err Value
  | 0, _, _ => .error .fuelOut
  | f+1, env, e =>
    match e with
    | .num n => .ok (.int n)
    | .strE s => .ok (.str s)
    | .name id =>
      match lookupEnv env id with
      | some v => .ok v
      | none =>
        if id = "True" then .ok (.bool true)
        else if id = "False" then .ok (.bool false)
        else if id = "None" then .ok .vnone
        else if id = "range" then .ok (.builtin "range")
        else .error .nameError
    | .listE es => (evalListE f env es).map .list
    | .setE es => (evalListE f env es).map (fun vs => .set (dedupF vs))
    | .dictE ps => (evalPairsE f env ps).map (fun kvs => .dict (buildDict kvs))
    | .unaryOp .usub a =>
      match evalE f env a with
      | .ok v =>
        match toIntV v with
        | some n => .ok (.int (-n))
        | none => .error .typeError
      | .error er => .error er
    | .binOp op a b => do
      let v1 ← evalE f env a
      let v2 ← evalE f env b
      binOpV op v1 v2
    | .cmpE .eq a b => do
      let v1 ← evalE f env a
      let v2 ← evalE f env b
      .ok (.bool (pyEq v1 v2))
    | .call fn args => do
      let vf ← evalE f env fn
      let vargs ← evalListE f env args
      match vf with
      | .builtin "range" => rangeV vargs
      | _ => .error .typeError
    | .listComp elt gens => (evalComp f env elt gens).map .list

def evalListE : Nat → List (String × Value) → List PyExpr → Except Err (List Value)
  | 0, _, _ => .error .fuelOut
  | _+1, _, [] => .ok []
  | f+1, env, e :: es => do
    let v ← evalE f env e
    let vs ← evalListE f env es
    .ok (v :: vs)

def evalPairsE : Nat → List (String × Value) → List (PyExpr × PyExpr) →
    Except Err (List (Value × Value))
  | 0, _, _ => .error .fuelOut
  | _+1, _, [] => .ok []
  | f+1, env, (ke, ve) :: rest => do
    let k ← evalE f env ke
    let v ← evalE f env ve
    let kvs ← evalPairsE f env rest
    .ok ((k, v) :: kvs)

def evalComp : Nat → List (String × Value) → PyExpr →
    List (String × PyExpr × List PyExpr) → Except Err (List Value)
  | 0, _, _, _ => .error .fuelOut
  | f+1, env, elt, [] => (evalE f env elt).map (fun v => [v])
  | f+1, env, elt, (tgt, it, ifs) :: rest => do
    let vit ← evalE f env it
    let vs ← iterOf vit
    evalCompElems f env elt tgt ifs rest vs

def evalCompElems : Nat → List (String × Value) → PyExpr → String → List PyExpr →
    List (String × PyExpr × List PyExpr) → List Value → Except Err (List Value)
  | 0, _, _, _, _, _, _ => .error .fuelOut
  | _+1, _, _, _, _, _, [] => .ok []
  | f+1, env, elt, tgt, ifs, rest, v :: vs => do
    let keep ← evalIfsE f ((tgt, v) :: env) ifs
    if keep then do
      let rs ← evalComp f ((tgt, v) :: env) elt rest
      let more ← evalCompElems f env elt tgt ifs rest vs
      .ok (rs ++ more)
    else
      evalCompElems f env elt tgt ifs rest vs

def evalIfsE : Nat → List (String × Value) → List PyExpr → Except Err Bool
  | 0, _, _ => .error .fuelOut
  | _+1, _, [] => .ok true
  | f+1, env, c :: cs => do
    let v ← evalE f env c
    if truthy v then evalIfsE f env cs else .ok false

end

/-- Fuel for the evaluator.  Evaluation work is bounded by the size of
the expression plus the sizes of the intermediate lists it builds;
this constant comfortably covers any candidate a user could type in a
session (Python itself would only fail later, by memory or time, on
inputs beyond it). -/
def evalFuel : Nat := 1000000

/-- `safe_eval` of `src/main.py` on the caught fragment: evaluate a
string and return either the value or the captured error.  This is
the function the `check_answer` methods consume; it models the
outcomes the `except Exception` clause can deliver.  The exception
boundary itself — `except Exception` does not catch `BaseException`
— is modelled separately by `safe_eval_full` below. -/
def safe_eval (s : String) : Except Err Value :=
  match parseFull s with
  | none => .error .syntaxError
  | some e => evalE evalFuel [] e

/-- `safe_compile` of `src/main.py`: parse a string to its
(`eval`-mode) AST body; on any failure return the fixed sentinel,
the AST of the expression `e` - that is, `Name('e')`. -/
def safe_compile (s : String) : PyExpr :=
  match parseFull s with
  | some e => e
  | none => .name "e"

example : safe_eval "5" = .ok (.int 5) := rfl
example : safe_eval "-3" = .ok (.int (-3)) := rfl
example : safe_eval "2+3" = .ok (.int 5) := rfl
example : safe_eval "" = .error .syntaxError := rfl
example : safe_eval "x" = .error .nameError := rfl
example : safe_eval "range(3)" = .ok (.list [.int 0, .int 1, .int 2]) := rfl
example : safe_eval "[x for x in range(3)]" = .ok (.list [.int 0, .int 1, .int 2]) := rfl
example : safe_eval "[x for x in [0,1,2]]" = .ok (.list [.int 0, .int 1, .int 2]) := rfl
example : safe_eval "[x*x for x in range(4) if x]" = .ok (.list [.int 1, .int 4, .int 9]) := rfl
example : safe_eval "1==1" = .ok (.bool true) := rfl
example : safe_compile "[1,2" = .name "e" := rfl

/-!
### The exception boundary of `safe_eval`

`safe_eval` wraps `eval` in `try ... except Exception`
(`src/main.py:52-55`).  In the Python versions that have `ast`
(2.6+), `SystemExit` derives from `BaseException`, not `Exception`,
so an evaluation that raises it — the site builtins `exit` and
`quit`, visible to `eval` in the module's scope, do exactly that
when called — passes straight through `safe_eval`.  `evalX` is the
evaluator with that escape channel; `safe_eval_full` applies the
`except Exception` boundary to it.  (Other builtins `eval` could see
raise only `Exception` subclasses or return values, and attribute
access such as `sys.exit` is outside the modelled grammar; `exit` /
`quit` are the `BaseException` path reachable in the sublanguage.)
-/

/-- What the raw `eval` can raise: an `Exception` subclass (`exc`,
caught by `except Exception`), or `SystemExit` (a `BaseException`,
not caught). -/
inductive Raised where
  | exc (e : Err)
  | systemExit
deriving DecidableEq

mutual

def evalX : Nat → List (String × Value) → PyExpr → Except Raised Value
  | 0, _, _ => .error (.exc .fuelOut)
  | f+1, env, e =>
    match e with
    | .num n => .ok (.int n)
    | .strE s => .ok (.str s)
    | .name id =>
      match lookupEnv env id with
      | some v => .ok v
      | none =>
        if id = "True" then .ok (.bool true)
        else if id = "False" then .ok (.bool false)
        else if id = "None" then .ok .vnone
        else if id = "range" then .ok (.builtin "range")
        else if id = "exit" then .ok (.builtin "exit")
        else if id = "quit" then .ok (.builtin "quit")
        else .error (.exc .nameError)
    | .listE es => (evalListX f env es).map .list
    | .setE es => (evalListX f env es).map (fun vs => .set (dedupF vs))
    | .dictE ps => (evalPairsX f env ps).map (fun kvs => .dict (buildDict kvs))
    | .unaryOp .usub a =>
      match evalX f env a with
      | .ok v =>
        match toIntV v with
        | some n => .ok (.int (-n))
        | none => .error (.exc .typeError)
      | .error er => .error er
    | .binOp op a b => do
      let v1 ← evalX f env a
      let v2 ← evalX f env b
      (binOpV op v1 v2).mapError .exc
    | .cmpE .eq a b => do
      let v1 ← evalX f env a
      let v2 ← evalX f env b
      .ok (.bool (pyEq v1 v2))
    | .call fn args => do
      let vf ← evalX f env fn
      let vargs ← evalListX f env args
      match vf with
      | .builtin "range" => (rangeV vargs).mapError .exc
      | .builtin "exit" => .error .systemExit
      | .builtin "quit" => .error .systemExit
      | _ => .error (.exc .typeError)
    | .listComp elt gens => (evalCompX f env elt gens).map .list

def evalListX : Nat → List (String × Value) → List PyExpr → Except Raised (List Value)
  | 0, _, _ => .error (.exc .fuelOut)
  | _+1, _, [] => .ok []
  | f+1, env, e :: es => do
    let v ← evalX f env e
    let vs ← evalListX f env es
    .ok (v :: vs)

def evalPairsX : Nat → List (String × Value) → List (PyExpr × PyExpr) →
    Except Raised (List (Value × Value))
  | 0, _, _ => .error (.exc .fuelOut)
  | _+1, _, [] => .ok []
  | f+1, env, (ke, ve) :: rest => do
    let k ← evalX f env ke
    let v ← evalX f env ve
    let kvs ← evalPairsX f env rest
    .ok ((k, v) :: kvs)

def evalCompX : Nat → List (String × Value) → PyExpr →
    List (String × PyExpr × List PyExpr) → Except Raised (List Value)
  | 0, _, _, _ => .error (.exc .fuelOut)
  | f+1, env, elt, [] => (evalX f env elt).map (fun v => [v])
  | f+1, env, elt, (tgt, it, ifs) :: rest => do
    let vit ← evalX f env it
    let vs ← (iterOf vit).mapError Raised.exc
    evalCompElemsX f env elt tgt ifs rest vs

def evalCompElemsX : Nat → List (String × Value) → PyExpr → String → List PyExpr →
    List (String × PyExpr × List PyExpr) → List Value → Except Raised (List Value)
  | 0, _, _, _, _, _, _ => .error (.exc .fuelOut)
  | _+1, _, _, _, _, _, [] => .ok []
  | f+1, env, elt, tgt, ifs, rest, v :: vs => do
    let keep ← evalIfsX f ((tgt, v) :: env) ifs
    if keep then do
      let rs ← evalCompX f ((tgt, v) :: env) elt rest
      let more ← evalCompElemsX f env elt tgt ifs rest vs
      .ok (rs ++ more)
    else
      evalCompElemsX f env elt tgt ifs rest vs

def evalIfsX : Nat → List (String × Value) → List PyExpr → Except Raised Bool
  | 0, _, _ => .error (.exc .fuelOut)
  | _+1, _, [] => .ok true
  | f+1, env, c :: cs => do
    let v ← evalX f env c
    if truthy v then evalIfsX f env cs else .ok false

end

/-- What can cross `safe_eval`'s boundary uncaught. -/
inductive Escape where
  | systemExit
deriving DecidableEq

/-- `safe_eval` with its exception boundary explicit: run the raw
`eval`; an `Exception` (`SyntaxError` from the parse included) is
caught by `except Exception` and returned as a value — the captured
error — while `SystemExit` propagates past the `try` block uncaught,
since `except Exception` (`src/main.py:54`) does not catch
`BaseException`. -/
def safe_eval_full (s : String) : Except Escape (Except Err Value) :=
  match parseFull s with
  | none => .ok (.error .syntaxError)
  | some e =>
    match evalX evalFuel [] e with
    | .ok v => .ok (.ok v)
    | .error (.exc er) => .ok (.error er)
    | .error .systemExit => .error .systemExit

example : safe_eval_full "5" = .ok (.ok (.int 5)) := rfl
example : safe_eval_full "x" = .ok (.error .nameError) := rfl
example : safe_eval_full "" = .ok (.error .syntaxError) := rfl
example : safe_eval_full "exit()" = .error .systemExit := rfl
example : safe_eval_full "[exit() for x in range(3)]" = .error .systemExit := rfl

/-!
### Shape predicates and the answer checkers

One `check_answer` per problem class of `src/main.py`.  The class's
configured expected type(s) (`_type`, `_element_type`, `_key_type`,
`_value_type` — always `ast.Num` or `ast.Str` in the catalog) become
an explicit `AstTy` argument; the stored `self.answer` becomes an
explicit `Except Err Value` argument (it is the result of a
`safe_eval`, so it may itself be a captured exception, which never
compares equal to anything).
-/

/-- The two `ast` literal classes the catalog configures
(`ast.Num`, `ast.Str`). -/
inductive AstTy where
  | num
  | str
deriving DecidableEq

/-- `isinstance(node, ty)` for the configured literal classes. -/
def isinstanceTy (e : PyExpr) : AstTy → Bool
  | .num => match e with | .num _ => true | _ => false
  | .str => match e with | .strE _ => true | _ => false

/-- The shape test of `BoolForwardProblem`:
`isinstance(x.body, ast.Name) and x.body.id in ['True', 'False']`. -/
def boolNameOk : PyExpr → Bool
  | .name id => id = "True" || id = "False"
  | _ => false

/-- The shape test of `ListOfSameForwardProblem`: a list literal all
of whose elements are literals of the element type. -/
def listShapeOk (et : AstTy) : PyExpr → Bool
  | .listE elts => elts.all (fun z => isinstanceTy z et)
  | _ => false

/-- The shape test of `SetOfSameForwardProblem`. -/
def setShapeOk (et : AstTy) : PyExpr → Bool
  | .setE elts => elts.all (fun z => isinstanceTy z et)
  | _ => false

/-- The shape test of `DictOfSameSameForwardProblem`: a dict literal
whose keys are all literals of the key type and whose values are all
literals of the value type. -/
def dictShapeOk (kt vt : AstTy) : PyExpr → Bool
  | .dictE pairs =>
    pairs.all (fun p => isinstanceTy p.1 kt) && pairs.all (fun p => isinstanceTy p.2 vt)
  | _ => false

/-- Is the node a list literal (`ast.List`)? -/
def isListLit : PyExpr → Bool
  | .listE _ => true
  | _ => false

/-- The spec's `isNonCheatingComprehension`: a list comprehension none
of whose generator clauses iterates directly over a literal list. -/
def isNonCheatingComprehension : PyExpr → Bool
  | .listComp _ gens => gens.all (fun g => !isListLit g.2.1)
  | _ => false

/-- `self.answer == other` comparisons: results compare by `pyEq` on
values; a captured exception compares equal to nothing (Python falls
back to identity there, and the compared objects are never
identical). -/
def resultEq (a b : Except Err Value) : Bool :=
  match a, b with
  | .ok x, .ok y => pyEq x y
  | _, _ => false

/-- Does the evaluation result satisfy `isinstance(eval_answer, dict)`? -/
def isDictR : Except Err Value → Bool
  | .ok (.dict _) => true
  | _ => false

/-- `SingletonForwardProblem.check_answer` (`src/main.py:159-182`),
with the configured `_type` and the stored answer as arguments. -/
def SingletonForwardProblem.check_answer (ty : AstTy) (answer : Except Err Value)
    (ans : String) : Bool × String :=
  if resultEq (safe_eval ans) answer then
    if isinstanceTy (safe_compile ans) ty then (true, "Correct!")
    else (false, "Correct, but not fully simplified")
  else (false, "Incorrect :(")

/-- `BoolForwardProblem.check_answer` (`src/main.py:188-210`). -/
def BoolForwardProblem.check_answer (answer : Except Err Value)
    (ans : String) : Bool × String :=
  if resultEq (safe_eval ans) answer then
    if boolNameOk (safe_compile ans) then (true, "Correct!")
    else (false, "Correct, but not fully simplified")
  else (false, "Incorrect :(")

/-- `ListOfSameForwardProblem.check_answer` (`src/main.py:218-245`).
The source loops over the elements and returns on the first one that
is not an `_element_type` literal; that is extensionally the `all`
below. -/
def ListOfSameForwardProblem.check_answer (et : AstTy) (answer : Except Err Value)
    (ans : String) : Bool × String :=
  if resultEq (safe_eval ans) answer then
    match safe_compile ans with
    | .listE elts =>
      if elts.all (fun z => isinstanceTy z et) then (true, "Correct!")
      else (false, "Correct, but not fully simplified")
    | _ => (false, "Correct, but not fully simplified")
  else (false, "Incorrect :(")

/-- `SetOfSameForwardProblem.check_answer` (`src/main.py:253-280`). -/
def SetOfSameForwardProblem.check_answer (et : AstTy) (answer : Except Err Value)
    (ans : String) : Bool × String :=
  if resultEq (safe_eval ans) answer then
    match safe_compile ans with
    | .setE elts =>
      if elts.all (fun z => isinstanceTy z et) then (true, "Correct!")
      else (false, "Correct, but not fully simplified")
    | _ => (false, "Correct, but not fully simplified")
  else (false, "Incorrect :(")

/-- `DictOfSameSameForwardProblem.check_answer` (`src/main.py:289-321`):
note the extra `isinstance(eval_answer, dict)` guard, and the two
element loops (keys first, then values), which are extensionally the
two `all`s below. -/
def DictOfSameSameForwardProblem.check_answer (kt vt : AstTy)
    (answer : Except Err Value) (ans : String) : Bool × String :=
  if isDictR (safe_eval ans) && resultEq (safe_eval ans) answer then
    match safe_compile ans with
    | .dictE pairs =>
      if pairs.all (fun p => isinstanceTy p.1 kt) then
        if pairs.all (fun p => isinstanceTy p.2 vt) then (true, "Correct!")
        else (false, "Correct, but not fully simplified")
      else (false, "Correct, but not fully simplified")
    | _ => (false, "Correct, but not fully simplified")
  else (false, "Incorrect :(")

/-- The multi-line message of `ListComprehensionBackwardProblem`
(a triple-quoted string starting and ending with a newline). -/
def cheatingMsg : String :=
  "\nCorrect, but you are cheating by using a list inside the list comprehension\n"

/-- `ListComprehensionBackwardProblem.check_answer`
(`src/main.py:384-411`). -/
def ListComprehensionBackwardProblem.check_answer (answer : Except Err Value)
    (ans : String) : Bool × String :=
  if resultEq (safe_eval ans) answer then
    match safe_compile ans with
    | .listComp _ gens =>
      if gens.any (fun g => isListLit g.2.1) then (false, cheatingMsg)
      else (true, "Correct!")
    | _ => (false, "Correct, but not a list comprehension")
  else (false, "Incorrect :(")

/-- The three-outcome verdict of the spec's state machine (§4.6):
value mismatch, else shape mismatch, else full match. -/
def verdictSpec (valueEq shapeOk : Bool) : Bool × String :=
  if valueEq then
    if shapeOk then (true, "Correct!")
    else (false, "Correct, but not fully simplified")
  else (false, "Incorrect :(")

example : SingletonForwardProblem.check_answer .num (.ok (.int 5)) "5" = (true, "Correct!") := by decide
example : SingletonForwardProblem.check_answer .num (.ok (.int 5)) "2+3" =
    (false, "Correct, but not fully simplified") := by decide
example : SingletonForwardProblem.check_answer .num (.ok (.int 5)) "4" =
    (false, "Incorrect :(") := by decide
example : BoolForwardProblem.check_answer (.ok (.bool true)) "True" = (true, "Correct!") := by decide
example : BoolForwardProblem.check_answer (.ok (.bool true)) "1==1" =
    (false, "Correct, but not fully simplified") := by decide
example : DictOfSameSameForwardProblem.check_answer .str .num
    (.ok (.dict [(.str "a", .int 1)])) "\x7b\"a\": 1\x7d" = (true, "Correct!") := by decide
example : ListComprehensionBackwardProblem.check_answer
    (.ok (.list [.int 0, .int 1, .int 2])) "[x for x in range(3)]" = (true, "Correct!") := by decide
example : ListComprehensionBackwardProblem.check_answer
    (.ok (.list [.int 0, .int 1, .int 2])) "[x for x in [0,1,2]]" = (false, cheatingMsg) := by decide

/-!
### The template formatter and the instantiation engine

`string.Formatter().parse` is modelled by `fparse`: it splits a
template into segments, each a literal chunk paired with an optional
following placeholder `(field name, format spec)`.  As in CPython, a
doubled brace ends the current literal chunk (which includes one copy
of the brace), the field name is the text before the first `:` of the
field and the format spec the text after it, braces nest inside a
field, and an unmatched single brace is an error (`none`).
Conversion specifiers (`!r` etc.) are not modelled: the program
asserts they are absent.
-/

/-- One segment of a parsed format string: the literal text before
the field, and the field as (name, format spec) if present. -/
def Seg : Type := List Char × Option (List Char × List Char)

/-- Scanner state: inside a literal chunk (with accumulated text), or
inside a field (accumulated literal, accumulated field text, brace
nesting depth). -/
inductive FMode where
  | lit (acc : List Char)
  | field (lit : List Char) (acc : List Char) (depth : Nat)

/-- Split field text at the first colon: (field name, format spec);
the spec is empty when there is no colon. -/
def splitColonFirst : List Char → List Char × List Char
  | [] => ([], [])
  | c :: cs =>
    if c = ':' then ([], cs)
    else
      let p := splitColonFirst cs
      (c :: p.1, p.2)

/-- `str.split(':')`. -/
def splitColonAll : List Char → List (List Char)
  | [] => [[]]
  | c :: cs =>
    if c = ':' then [] :: splitColonAll cs
    else
      match splitColonAll cs with
      | [] => [[c]]
      | a :: rest => (c :: a) :: rest

/-- The trailing literal segment: nothing if the text is empty. -/
def litTail (acc : List Char) : List Seg :=
  if acc.isEmpty then [] else [(acc, none)]

/-- The format-string scanner. -/
def fparseGo : List Char → FMode → Option (List Seg)
  | [], .lit acc => some (litTail acc)
  | [], .field _ _ _ => none
  | c :: rest, .lit acc =>
    if c = lbrace then
      match rest with
      | [] => none
      | c2 :: rest2 =>
        if c2 = lbrace then
          (fparseGo rest2 (.lit [])).map (fun segs => ((acc ++ [lbrace], none) :: segs))
        else if c2 = rbrace then
          (fparseGo rest2 (.lit [])).map
            (fun segs => ((acc, some (splitColonFirst [])) :: segs))
        else fparseGo rest2 (.field acc [c2] 1)
    else if c = rbrace then
      match rest with
      | [] => none
      | c2 :: rest2 =>
        if c2 = rbrace then
          (fparseGo rest2 (.lit [])).map (fun segs => ((acc ++ [rbrace], none) :: segs))
        else none
    else fparseGo rest (.lit (acc ++ [c]))
  | c :: rest, .field lit facc depth =>
    if c = rbrace then
      if depth = 1 then
        (fparseGo rest (.lit [])).map (fun segs => ((lit, some (splitColonFirst facc)) :: segs))
      else fparseGo rest (.field lit (facc ++ [c]) (depth - 1))
    else if c = lbrace then fparseGo rest (.field lit (facc ++ [c]) (depth + 1))
    else fparseGo rest (.field lit (facc ++ [c]) depth)

/-- `string.Formatter().parse` on a template. -/
def fparse (l : List Char) : Option (List Seg) := fparseGo l (.lit [])

/-- `s.replace('\x7b', '\x7b\x7b').replace('\x7d', '\x7d\x7d')`:
escape every brace by doubling it (the two replaces act on distinct
single characters, so they are this single pass). -/
def escapeLC : List Char → List Char
  | [] => []
  | c :: cs =>
    (if c = lbrace then [lbrace, lbrace]
     else if c = rbrace then [rbrace, rbrace] else [c]) ++ escapeLC cs

/-- Left-to-right non-overlapping replacement of a doubled brace `b`
by a single one, as `str.replace` does. -/
def collapsePair (b : Char) : List Char → List Char
  | [] => []
  | c :: cs =>
    if c = b then
      match cs with
      | c2 :: cs2 => if c2 = b then b :: collapsePair b cs2 else c :: c2 :: collapsePair b cs2
      | [] => [c]
    else c :: collapsePair b cs

/-- `s.replace('\x7b\x7b', '\x7b').replace('\x7d\x7d', '\x7d')`. -/
def unescapeLC (l : List Char) : List Char := collapsePair rbrace (collapsePair lbrace l)

/-- The corpus: a mapping from category name to the category's
template strings, as loaded by `load_corpus`. -/
def Corpus : Type := List (String × List String)

/-- `corpus[var]` (`none` models the `KeyError`). -/
def corpusGet : Corpus → String → Option (List String)
  | [], _ => none
  | (k, v) :: rest, key => if k = key then some v else corpusGet rest key

/-- `random.choice(opts)` with the global `random` stream replaced by
an explicit tape: take the next tape entry `t` and pick
`opts[t % len(opts)]`.  An empty option list is the `IndexError`; an
exhausted tape is a model artifact treated the same way. -/
def randChoice (tape : List Nat) (opts : List String) : Option (String × List Nat) :=
  match tape, opts with
  | t :: rest, _ :: _ => some (opts.getD (t % opts.length) "", rest)
  | _, _ => none

/-- Outcome of one pass of the `while` loop body of `instantiate`:
the next working expression (with the remaining tape), the
named-binding type-mismatch signal (which aborts the pass), or an
uncaught exception (`KeyError` / `IndexError` / `ValueError` /
malformed sub-template). -/
inductive PassOut where
  | ok (next : List Char) (tape : List Nat)
  | mismatch (tape : List Nat)
  | fail

/-- The inner loop over the chosen sub-template's segments for a named
binding `\x7bvar:ty:nm\x7d`: escape the literal chunks; at each inner
placeholder require its field name to equal `ty` and substitute the
bound name `nm`; a differing field name is the mismatch (`none`). -/
def bindLoop (ty nm : List Char) : List Seg → Option (List Char)
  | [] => some []
  | (lit, fld) :: rest =>
    match fld with
    | none => (bindLoop ty nm rest).map (fun b => escapeLC lit ++ b)
    | some (var2, _) =>
      if var2 = ty then (bindLoop ty nm rest).map (fun b => escapeLC lit ++ nm ++ b)
      else none

/-- One pass of the `while` loop of `instantiate`: walk the parsed
segments left to right, escaping literal text, and replace each
placeholder — a named binding (non-empty format spec, which must be
`ty:nm`) by its bound sub-expansion, an anonymous one by a random
template of the category spliced verbatim. -/
def onePass (corpus : Corpus) : List Nat → List Seg → PassOut
  | tape, [] => .ok [] tape
  | tape, (lit, fld) :: rest =>
    match fld with
    | none =>
      match onePass corpus tape rest with
      | .ok next tape2 => .ok (escapeLC lit ++ next) tape2
      | other => other
    | some (var, spec) =>
      if spec.isEmpty then
        match corpusGet corpus (String.mk var) with
        | none => .fail
        | some templates =>
          match randChoice tape templates with
          | none => .fail
          | some (chosen, tape1) =>
            match onePass corpus tape1 rest with
            | .ok next tape2 => .ok (escapeLC lit ++ chosen.data ++ next) tape2
            | other => other
      else
        match corpusGet corpus (String.mk var) with
        | none => .fail
        | some templates =>
          match randChoice tape templates with
          | none => .fail
          | some (ve, tape1) =>
            match splitColonAll spec with
            | [ty, nm] =>
              match fparse ve.data with
              | none => .fail
              | some segs2 =>
                match bindLoop ty nm segs2 with
                | none => .mismatch tape1
                | some bound =>
                  match onePass corpus tape1 rest with
                  | .ok next tape2 => .ok (escapeLC lit ++ bound ++ next) tape2
                  | other => other
            | _ => .fail

/-- The `while True` loop of `instantiate`, carrying the original
top-level template for the restart-on-mismatch case.  Each iteration
parses the working expression, runs one pass, and stops (unescaping
doubled braces) as soon as a pass result parses with no placeholders
left.  `fuel` bounds the number of iterations: the source has no such
bound and can loop forever on an always-mismatching corpus. -/
def instAux (corpus : Corpus) (original : List Char) :
    Nat → List Char → List Nat → Option (List Char)
  | 0, _, _ => none
  | fuel+1, expr, tape =>
    match fparse expr with
    | none => none
    | some segs =>
      match onePass corpus tape segs with
      | .fail => none
      | .mismatch tape1 => instAux corpus original fuel original tape1
      | .ok next tape1 =>
        match fparse next with
        | none => none
        | some segs2 =>
          if segs2.all (fun g => g.2.isNone) then some (unescapeLC next)
          else instAux corpus original fuel next tape1

/-- `instantiate(expr, corpus)` of `src/main.py`, with the random
stream and the iteration bound explicit. -/
def instantiate (expr : String) (corpus : Corpus) (fuel : Nat) (tape : List Nat) :
    Option String :=
  (instAux corpus expr.data fuel expr.data tape).map String.mk

/-- The spec's mismatch-free expansion (§4.2, §8 named-binding
consistency): identical to `instAux`, except that a named-binding
type mismatch is a dead end rather than a retry.  A run of this
function is "a full, independent re-expansion from the seed": no
partial expansion survives a mismatch. -/
def instAuxNoRetry (corpus : Corpus) :
    Nat → List Char → List Nat → Option (List Char)
  | 0, _, _ => none
  | fuel+1, expr, tape =>
    match fparse expr with
    | none => none
    | some segs =>
      match onePass corpus tape segs with
      | .fail => none
      | .mismatch _ => none
      | .ok next tape1 =>
        match fparse next with
        | none => none
        | some segs2 =>
          if segs2.all (fun g => g.2.isNone) then some (unescapeLC next)
          else instAuxNoRetry corpus fuel next tape1

example : fparse "ab".data = some [("ab".data, none)] := rfl
example : fparse "a\x7bnum\x7db".data =
    some [("a".data, some ("num".data, [])), ("b".data, none)] := rfl
example : fparse "\x7b".data = none := rfl
example : fparse "a\x7b\x7bb".data = some [("a\x7b".data, none), ("b".data, none)] := rfl
example : instantiate "\x7bnum\x7d+\x7bnum\x7d" [("num", ["1", "2"])] 1 [0, 1] =
    some "1+2" := rfl
example : instantiate "\x7b\x7b" [] 1 [] = some "\x7b" := rfl
example : instantiate "\x7bcomp:elem:i\x7d"
    [("comp", ["\x7bwrong\x7d", "\x7belem\x7d"])] 3 [0, 1] = some "i" := rfl
example : instantiate "hello" [] 1 [] = some "hello" := rfl

/-!
### Helper lemmas
-/

/-- A value that compares `pyEq`-equal to a dict is itself a dict:
`pyEqF` is `false` between a dict and any other kind of value, at any
fuel. -/
theorem pyEq_to_dict {v : Value} {d : List (Value × Value)}
    (h : pyEq v (.dict d) = true) : ∃ d2, v = .dict d2 := by
  cases v with
  | dict d2 => exact ⟨d2, rfl⟩
  | int n => exact absurd h (by rw [show pyEq (.int n) (.dict d) = false from rfl]; simp)
  | str a => exact absurd h (by rw [show pyEq (.str a) (.dict d) = false from rfl]; simp)
  | bool b => exact absurd h (by rw [show pyEq (.bool b) (.dict d) = false from rfl]; simp)
  | vnone => exact absurd h (by rw [show pyEq .vnone (.dict d) = false from rfl]; simp)
  | list l => exact absurd h (by rw [show pyEq (.list l) (.dict d) = false from rfl]; simp)
  | set l => exact absurd h (by rw [show pyEq (.set l) (.dict d) = false from rfl]; simp)
  | builtin b => exact absurd h (by rw [show pyEq (.builtin b) (.dict d) = false from rfl]; simp)

/-- A result that compares equal to an ok dict passes the
`isinstance(eval_answer, dict)` guard. -/
theorem isDictR_of_resultEq {r : Except Err Value} {d : List (Value × Value)}
    (h : resultEq r (.ok (.dict d)) = true) : isDictR r = true := by
  cases r with
  | error e => simp [resultEq] at h
  | ok v =>
    obtain ⟨d2, rfl⟩ := pyEq_to_dict (by simpa [resultEq] using h)
    rfl

/-- `all (not p)` is the negation of `any p`. -/
theorem all_not_eq_not_any (p : α → Bool) (l : List α) :
    l.all (fun x => !p x) = !l.any p := by
  induction l with
  | nil => rfl
  | cons x xs ih => by_cases hx : p x <;> simp [hx, ih]

/-!
### C2: the evaluator boundary is not total (code bug)

The claim — and `safe_eval`'s own docstring ("catching exceptions
... either the value of the expression, or the exception that was
raised") — promise that nothing escapes `safe_eval`.  The code does
not deliver that: `except Exception` (`src/main.py:54`) lets
`SystemExit` through, and `eval("exit()")` raises it.
-/

/-- C2: at the failing input `"exit()"` (and `"quit()"`), evaluation
raises `SystemExit` past `safe_eval`'s boundary instead of returning
a captured value — `except Exception` does not catch
`BaseException` — while every other outcome is, as the claim says, a
value or a captured error value (`SyntaxError` on the empty string
and on garbage included). -/
theorem C2_systemExit_escapes :
    safe_eval_full "exit()" = .error .systemExit
    ∧ safe_eval_full "quit()" = .error .systemExit
    ∧ safe_eval_full "" = .ok (.error .syntaxError)
    ∧ safe_eval_full ")(" = .ok (.error .syntaxError)
    ∧ (∀ s : String,
        safe_eval_full s = .error .systemExit
        ∨ ∃ r, safe_eval_full s = .ok r) := by
  refine ⟨rfl, rfl, rfl, rfl, fun s => ?_⟩
  cases h : safe_eval_full s with
  | ok r => exact .inr ⟨r, rfl⟩
  | error e => cases e with | systemExit => exact .inl rfl

/-!
### C3: the parse-failure sentinel
-/

/-- C3: `safe_compile` never raises; on any parse failure it returns
the one fixed sentinel node (the AST of the name `e`), and that
sentinel satisfies none of the shape predicates used by any problem
class, so a value-matching but unparseable candidate can never be
judged fully simplified. -/
theorem C3_sentinel_fails_all_shapes :
    (∀ s : String, parseFull s = none → safe_compile s = .name "e")
    ∧ isinstanceTy (.name "e") .num = false
    ∧ isinstanceTy (.name "e") .str = false
    ∧ boolNameOk (.name "e") = false
    ∧ listShapeOk .num (.name "e") = false
    ∧ listShapeOk .str (.name "e") = false
    ∧ setShapeOk .num (.name "e") = false
    ∧ dictShapeOk .str .num (.name "e") = false
    ∧ isNonCheatingComprehension (.name "e") = false := by
  refine ⟨fun s h => ?_, rfl, rfl, rfl, rfl, rfl, rfl, rfl, rfl⟩
  unfold safe_compile
  rw [h]

/-- Witness for C3 at the malformed candidate `"[1,2"`. -/
theorem C3_witness : safe_compile "[1,2" = .name "e" :=
  C3_sentinel_fails_all_shapes.1 "[1,2" rfl

/-!
### C6: the fixed message strings (corrected)

The five forward problem classes do return exactly the three fixed
strings, but `ListComprehensionBackwardProblem` does not: its
shape-mismatch messages are `"Correct, but not a list comprehension"`
and the multi-line cheating message.
-/

/-- C6 counterexample: a value-equal non-comprehension candidate to
the list-comprehension backward problem gets a message that is none
of the three fixed strings of the claim. -/
theorem C6_counterexample :
    (ListComprehensionBackwardProblem.check_answer
        (.ok (.list [.int 0, .int 1, .int 2])) "[0,1,2]").2 ≠ "Correct!"
    ∧ (ListComprehensionBackwardProblem.check_answer
        (.ok (.list [.int 0, .int 1, .int 2])) "[0,1,2]").2 ≠
        "Correct, but not fully simplified"
    ∧ (ListComprehensionBackwardProblem.check_answer
        (.ok (.list [.int 0, .int 1, .int 2])) "[0,1,2]").2 ≠ "Incorrect :(" := by
  refine ⟨?_, ?_, ?_⟩ <;> decide

/-- C6 as amended: every message of the five forward
`check_answer` implementations is one of the three fixed strings
`"Correct!"`, `"Correct, but not fully simplified"`,
`"Incorrect :("`, verbatim; `ListComprehensionBackwardProblem` shares
`"Correct!"` and `"Incorrect :("` but replaces the middle one by
`"Correct, but not a list comprehension"` or the multi-line cheating
message. -/
theorem C6_amended_messages :
    (∀ (ty : AstTy) (answer : Except Err Value) (ans : String),
      (SingletonForwardProblem.check_answer ty answer ans).2 = "Correct!"
      ∨ (SingletonForwardProblem.check_answer ty answer ans).2 =
          "Correct, but not fully simplified"
      ∨ (SingletonForwardProblem.check_answer ty answer ans).2 = "Incorrect :(")
    ∧ (∀ (answer : Except Err Value) (ans : String),
      (BoolForwardProblem.check_answer answer ans).2 = "Correct!"
      ∨ (BoolForwardProblem.check_answer answer ans).2 =
          "Correct, but not fully simplified"
      ∨ (BoolForwardProblem.check_answer answer ans).2 = "Incorrect :(")
    ∧ (∀ (et : AstTy) (answer : Except Err Value) (ans : String),
      (ListOfSameForwardProblem.check_answer et answer ans).2 = "Correct!"
      ∨ (ListOfSameForwardProblem.check_answer et answer ans).2 =
          "Correct, but not fully simplified"
      ∨ (ListOfSameForwardProblem.check_answer et answer ans).2 = "Incorrect :(")
    ∧ (∀ (et : AstTy) (answer : Except Err Value) (ans : String),
      (SetOfSameForwardProblem.check_answer et answer ans).2 = "Correct!"
      ∨ (SetOfSameForwardProblem.check_answer et answer ans).2 =
          "Correct, but not fully simplified"
      ∨ (SetOfSameForwardProblem.check_answer et answer ans).2 = "Incorrect :(")
    ∧ (∀ (kt vt : AstTy) (answer : Except Err Value) (ans : String),
      (DictOfSameSameForwardProblem.check_answer kt vt answer ans).2 = "Correct!"
      ∨ (DictOfSameSameForwardProblem.check_answer kt vt answer ans).2 =
          "Correct, but not fully simplified"
      ∨ (DictOfSameSameForwardProblem.check_answer kt vt answer ans).2 = "Incorrect :(")
    ∧ (∀ (answer : Except Err Value) (ans : String),
      (ListComprehensionBackwardProblem.check_answer answer ans).2 = "Correct!"
      ∨ (ListComprehensionBackwardProblem.check_answer answer ans).2 =
          "Correct, but not a list comprehension"
      ∨ (ListComprehensionBackwardProblem.check_answer answer ans).2 = cheatingMsg
      ∨ (ListComprehensionBackwardProblem.check_answer answer ans).2 = "Incorrect :(") := by
  refine ⟨fun ty answer ans => ?_, fun answer ans => ?_, fun et answer ans => ?_,
    fun et answer ans => ?_, fun kt vt answer ans => ?_, fun answer ans => ?_⟩
  · unfold SingletonForwardProblem.check_answer
    split
    · split <;> simp
    · simp
  · unfold BoolForwardProblem.check_answer
    split
    · split <;> simp
    · simp
  · unfold ListOfSameForwardProblem.check_answer
    split
    · split <;> try split
      all_goals simp
    · simp
  · unfold SetOfSameForwardProblem.check_answer
    split
    · split <;> try split
      all_goals simp
    · simp
  · unfold DictOfSameSameForwardProblem.check_answer
    split
    · split <;> try split
      all_goals first | simp | (split <;> simp)
    · simp
  · unfold ListComprehensionBackwardProblem.check_answer
    split
    · split <;> try split
      all_goals simp
    · simp

/-!
### C9: the passed flag agrees with the message
-/

/-- C9: for every problem class and candidate, `check_answer` returns
`passed = True` exactly when its message is `"Correct!"`; every other
message is paired with `passed = False`. -/
theorem C9_passed_iff_correct :
    (∀ (ty : AstTy) (answer : Except Err Value) (ans : String),
      (SingletonForwardProblem.check_answer ty answer ans).1 = true
      ↔ (SingletonForwardProblem.check_answer ty answer ans).2 = "Correct!")
    ∧ (∀ (answer : Except Err Value) (ans : String),
      (BoolForwardProblem.check_answer answer ans).1 = true
      ↔ (BoolForwardProblem.check_answer answer ans).2 = "Correct!")
    ∧ (∀ (et : AstTy) (answer : Except Err Value) (ans : String),
      (ListOfSameForwardProblem.check_answer et answer ans).1 = true
      ↔ (ListOfSameForwardProblem.check_answer et answer ans).2 = "Correct!")
    ∧ (∀ (et : AstTy) (answer : Except Err Value) (ans : String),
      (SetOfSameForwardProblem.check_answer et answer ans).1 = true
      ↔ (SetOfSameForwardProblem.check_answer et answer ans).2 = "Correct!")
    ∧ (∀ (kt vt : AstTy) (answer : Except Err Value) (ans : String),
      (DictOfSameSameForwardProblem.check_answer kt vt answer ans).1 = true
      ↔ (DictOfSameSameForwardProblem.check_answer kt vt answer ans).2 = "Correct!")
    ∧ (∀ (answer : Except Err Value) (ans : String),
      (ListComprehensionBackwardProblem.check_answer answer ans).1 = true
      ↔ (ListComprehensionBackwardProblem.check_answer answer ans).2 = "Correct!") := by
  refine ⟨fun ty answer ans => ?_, fun answer ans => ?_, fun et answer ans => ?_,
    fun et answer ans => ?_, fun kt vt answer ans => ?_, fun answer ans => ?_⟩
  · unfold SingletonForwardProblem.check_answer
    split
    · split <;> decide
    · decide
  · unfold BoolForwardProblem.check_answer
    split
    · split <;> decide
    · decide
  · unfold ListOfSameForwardProblem.check_answer
    split
    · split <;> try split
      all_goals decide
    · decide
  · unfold SetOfSameForwardProblem.check_answer
    split
    · split <;> try split
      all_goals decide
    · decide
  · unfold DictOfSameSameForwardProblem.check_answer
    split
    · split <;> try split
      all_goals first | decide | (split <;> decide)
    · decide
  · unfold ListComprehensionBackwardProblem.check_answer
    split
    · split <;> try split
      all_goals decide
    · decide

/-!
### C1: the three-outcome rule
-/

/-- C1: with a configured expected shape, `check_answer` follows the
three-outcome rule of the verdict state machine — value mismatch
gives `"Incorrect :("`, value match with a rejected shape gives
`"Correct, but not fully simplified"`, value match with an accepted
shape gives `"Correct!"` — and the shape predicate plays no role when
the values differ.  Stated for the two cited implementations: the
singleton problems (for every stored answer) and the dict problems
(for every stored dict answer; the stored answer of a dict problem
is the evaluated dict of its generated expression, and its extra
`isinstance(eval_answer, dict)` guard is subsumed because only a
dict compares equal to a dict). -/
theorem C1_three_outcome_rule :
    (∀ (ty : AstTy) (answer : Except Err Value) (ans : String),
      SingletonForwardProblem.check_answer ty answer ans =
        verdictSpec (resultEq (safe_eval ans) answer)
          (isinstanceTy (safe_compile ans) ty))
    ∧ (∀ (ty ty2 : AstTy) (answer : Except Err Value) (ans : String),
      resultEq (safe_eval ans) answer = false →
        SingletonForwardProblem.check_answer ty answer ans =
          SingletonForwardProblem.check_answer ty2 answer ans)
    ∧ (∀ (kt vt : AstTy) (d : List (Value × Value)) (ans : String),
      DictOfSameSameForwardProblem.check_answer kt vt (.ok (.dict d)) ans =
        verdictSpec (resultEq (safe_eval ans) (.ok (.dict d)))
          (dictShapeOk kt vt (safe_compile ans))) := by
  refine ⟨fun ty answer ans => rfl, fun ty ty2 answer ans h => ?_, fun kt vt d ans => ?_⟩
  · simp [SingletonForwardProblem.check_answer, h]
  · unfold DictOfSameSameForwardProblem.check_answer verdictSpec
    cases hre : resultEq (safe_eval ans) (.ok (.dict d)) with
    | false => simp [hre]
    | true =>
      have hd : isDictR (safe_eval ans) = true := isDictR_of_resultEq hre
      simp only [hre, hd, Bool.and_self, if_true]
      cases hc : safe_compile ans <;> simp only [dictShapeOk]
      case dictE pairs =>
        by_cases hk : (pairs.all fun p => isinstanceTy p.1 kt) = true <;>
          by_cases hv : (pairs.all fun p => isinstanceTy p.2 vt) = true <;>
            simp [hk, hv]
      all_goals simp

/-- Witness for C1: a concrete value mismatch, where the verdict is
`"Incorrect :("` for both configured types. -/
theorem C1_witness :
    SingletonForwardProblem.check_answer .num (.ok (.int 5)) "4" =
      SingletonForwardProblem.check_answer .str (.ok (.int 5)) "4" :=
  C1_three_outcome_rule.2.1 .num .str (.ok (.int 5)) "4" (by decide)

/-!
### C5: the non-cheating comprehension rule
-/

/-- C5: for the list-comprehension backward problem, a value-equal
candidate is a full match exactly when it parses to a list
comprehension none of whose generator clauses iterates directly over
a literal list; concretely, the value-equal `"[x for x in [0,1,2]]"`
is rejected as cheating while `"[x for x in range(3)]"` passes. -/
theorem C5_non_cheating_comprehension :
    (∀ (answer : Except Err Value) (ans : String),
      resultEq (safe_eval ans) answer = true →
        ((ListComprehensionBackwardProblem.check_answer answer ans).1 = true
          ↔ isNonCheatingComprehension (safe_compile ans) = true))
    ∧ ListComprehensionBackwardProblem.check_answer
        (.ok (.list [.int 0, .int 1, .int 2])) "[x for x in [0,1,2]]" =
        (false, cheatingMsg)
    ∧ ListComprehensionBackwardProblem.check_answer
        (.ok (.list [.int 0, .int 1, .int 2])) "[x for x in range(3)]" =
        (true, "Correct!") := by
  refine ⟨fun answer ans h => ?_, by decide, by decide⟩
  unfold ListComprehensionBackwardProblem.check_answer
  simp only [h, if_true]
  cases hc : safe_compile ans <;> simp only [isNonCheatingComprehension]
  case listComp elt gens =>
    rw [all_not_eq_not_any (fun g => isListLit g.2.1) gens]
    cases hg : gens.any (fun g => isListLit g.2.1) <;> simp [hg]

/-- Witness for C5 at a concrete value-equal candidate. -/
theorem C5_witness :
    (ListComprehensionBackwardProblem.check_answer
        (.ok (.list [.int 0, .int 1, .int 2])) "[x for x in range(3)]").1 = true
      ↔ isNonCheatingComprehension (safe_compile "[x for x in range(3)]") = true :=
  C5_non_cheating_comprehension.1 (.ok (.list [.int 0, .int 1, .int 2]))
    "[x for x in range(3)]" (by decide)

/-!
### C10: negated numeric literals are never "fully simplified"

`compile("-3", ..., ast.PyCF_ONLY_AST)` yields
`UnaryOp(USub, Num(3))`, not a `Num` node: constant folding happens
in bytecode, not in the AST.  The lemmas below walk the parser down
an arbitrary `-digits` candidate.
-/

theorem takeWhile_of_all {p : Char → Bool} {l : List Char} (h : l.all p = true) :
    l.takeWhile p = l := by
  induction l with
  | nil => rfl
  | cons c cs ih =>
    simp only [List.all_cons, Bool.and_eq_true] at h
    simp [List.takeWhile_cons, h.1, ih h.2]

theorem dropWhile_of_all {p : Char → Bool} {l : List Char} (h : l.all p = true) :
    l.dropWhile p = [] := by
  induction l with
  | nil => rfl
  | cons c cs ih =>
    simp only [List.all_cons, Bool.and_eq_true] at h
    simp [List.dropWhile_cons, h.1, ih h.2]

theorem not_space_of_digit {c : Char} (h : isDigitC c = true) : isSpaceC c = false := by
  cases hc : isSpaceC c
  · rfl
  · exfalso
    simp only [isSpaceC, Bool.or_eq_true, decide_eq_true_eq] at hc
    rcases hc with ((hc | hc) | hc) | hc <;> subst hc <;> exact absurd h (by decide)

theorem ne_dash_of_digit {c : Char} (h : isDigitC c = true) : c ≠ '-' := by
  rintro rfl
  exact absurd h (by decide)

theorem ws_cons_of_not_space {c : Char} {cs : List Char} (h : isSpaceC c = false) :
    ws (c :: cs) = c :: cs := by
  simp [ws, h]

theorem parseAtomP_digits (f : Nat) (d : Char) (rest : List Char)
    (hall : (d :: rest).all isDigitC = true) (hz : d ≠ '0') :
    parseAtomP (f+1) (d :: rest) =
      some (.num (Int.ofNat (numVal (d :: rest))), []) := by
  have hd : isDigitC d = true := by
    simp only [List.all_cons, Bool.and_eq_true] at hall
    exact hall.1
  simp only [parseAtomP]
  rw [ws_cons_of_not_space (not_space_of_digit hd)]
  simp [hd, hz, takeWhile_of_all hall, dropWhile_of_all hall]

theorem parseCallLoop_nil (f : Nat) (a : PyExpr) : parseCallLoop (f+1) a [] = some (a, []) := rfl

theorem parseMulLoop_nil (f : Nat) (a : PyExpr) : parseMulLoop (f+1) a [] = some (a, []) := rfl

theorem parseAddLoop_nil (f : Nat) (a : PyExpr) : parseAddLoop (f+1) a [] = some (a, []) := rfl

theorem parsePostP_digits (f : Nat) (d : Char) (rest : List Char)
    (hall : (d :: rest).all isDigitC = true) (hz : d ≠ '0') :
    parsePostP (f+1+1) (d :: rest) =
      some (.num (Int.ofNat (numVal (d :: rest))), []) := by
  simp only [parsePostP]
  rw [parseAtomP_digits f d rest hall hz]
  exact parseCallLoop_nil f _

theorem parseUnaryP_digits (f : Nat) (d : Char) (rest : List Char)
    (hall : (d :: rest).all isDigitC = true) (hz : d ≠ '0') :
    parseUnaryP (f+1+1+1) (d :: rest) =
      some (.num (Int.ofNat (numVal (d :: rest))), []) := by
  have hd : isDigitC d = true := by
    simp only [List.all_cons, Bool.and_eq_true] at hall
    exact hall.1
  simp only [parseUnaryP]
  rw [ws_cons_of_not_space (not_space_of_digit hd)]
  split
  · rename_i r heq
    rw [List.cons.injEq] at heq
    exact absurd heq.1 (ne_dash_of_digit hd)
  · exact parsePostP_digits f d rest hall hz

theorem parseUnaryP_neg (f : Nat) (d : Char) (rest : List Char)
    (hall : (d :: rest).all isDigitC = true) (hz : d ≠ '0') :
    parseUnaryP (f+1+1+1+1) ('-' :: d :: rest) =
      some (.unaryOp .usub (.num (Int.ofNat (numVal (d :: rest)))), []) := by
  simp only [parseUnaryP]
  rw [show ws ('-' :: d :: rest) = '-' :: d :: rest from
    ws_cons_of_not_space (by decide)]
  show (parseUnaryP (f+1+1+1) (d :: rest)).map _ = _
  rw [parseUnaryP_digits f d rest hall hz]
  rfl

theorem parseMulP_neg (f : Nat) (d : Char) (rest : List Char)
    (hall : (d :: rest).all isDigitC = true) (hz : d ≠ '0') :
    parseMulP (f+1+1+1+1+1) ('-' :: d :: rest) =
      some (.unaryOp .usub (.num (Int.ofNat (numVal (d :: rest)))), []) := by
  simp only [parseMulP]
  rw [parseUnaryP_neg f d rest hall hz]
  exact parseMulLoop_nil (f+1+1+1+1)
    (.unaryOp .usub (.num (Int.ofNat (numVal (d :: rest)))))

theorem parseAddP_neg (f : Nat) (d : Char) (rest : List Char)
    (hall : (d :: rest).all isDigitC = true) (hz : d ≠ '0') :
    parseAddP (f+1+1+1+1+1+1) ('-' :: d :: rest) =
      some (.unaryOp .usub (.num (Int.ofNat (numVal (d :: rest)))), []) := by
  simp only [parseAddP]
  rw [parseMulP_neg f d rest hall hz]
  exact parseAddLoop_nil (f+1+1+1+1+1)
    (.unaryOp .usub (.num (Int.ofNat (numVal (d :: rest)))))

theorem parseExprP_neg (f : Nat) (d : Char) (rest : List Char)
    (hall : (d :: rest).all isDigitC = true) (hz : d ≠ '0') :
    parseExprP (f+1+1+1+1+1+1+1) ('-' :: d :: rest) =
      some (.unaryOp .usub (.num (Int.ofNat (numVal (d :: rest)))), []) := by
  simp only [parseExprP]
  rw [parseAddP_neg f d rest hall hz]
  rfl

theorem parseFull_neg (d : Char) (rest : List Char)
    (hall : (d :: rest).all isDigitC = true) (hz : d ≠ '0') :
    parseFull (String.mk ('-' :: d :: rest)) =
      some (.unaryOp .usub (.num (Int.ofNat (numVal (d :: rest))))) := by
  unfold parseFull
  rw [show parseFuel (String.mk ('-' :: d :: rest)).data =
      (8 * rest.length + 17) + 1+1+1+1+1+1+1 from by
    simp only [parseFuel, String.data, List.length_cons]
    omega]
  rw [show (String.mk ('-' :: d :: rest)).data = '-' :: d :: rest from rfl]
  rw [parseExprP_neg (8 * rest.length + 17) d rest hall hz]
  rfl

theorem evalE_neg_num (v : Int) :
    evalE evalFuel [] (.unaryOp .usub (.num v)) = .ok (.int (-v)) := rfl

theorem pyEq_int_self (a : Int) : pyEq (.int a) (.int a) = true := by
  show (a == a) = true
  simp

/-- C10: for a numeric problem whose expected answer is the negative
of a number, the candidate "minus sign followed by the digits of the
number" (a digit run with no leading zero — the decimal digits of a
positive number never start with `0`) evaluates equal to the answer
but is judged `"Correct, but not fully simplified"`, because a
negated literal parses as a unary-minus node rather than a `Num`
node; likewise (concretely) for negative elements inside list, set
and dict container problems.  A leading-zero run is a different
beast: CPython 2 lexes it as octal, so `"-012"` evaluates to `-10`
and against the answer `-12` the verdict is `"Incorrect :("`. -/
theorem C10_negative_literals :
    (∀ ds : List Char, ds ≠ [] → ds.all isDigitC = true → ds.head? ≠ some '0' →
      SingletonForwardProblem.check_answer .num
        (.ok (.int (-(Int.ofNat (numVal ds))))) (String.mk ('-' :: ds)) =
        (false, "Correct, but not fully simplified"))
    ∧ safe_eval "-012" = .ok (.int (-10))
    ∧ SingletonForwardProblem.check_answer .num (.ok (.int (-12))) "-012" =
        (false, "Incorrect :(")
    ∧ ListOfSameForwardProblem.check_answer .num (.ok (.list [.int (-3)])) "[-3]" =
        (false, "Correct, but not fully simplified")
    ∧ SetOfSameForwardProblem.check_answer .num (.ok (.set [.int (-3)])) "\x7b-3\x7d" =
        (false, "Correct, but not fully simplified")
    ∧ DictOfSameSameForwardProblem.check_answer .str .num
        (.ok (.dict [(.str "a", .int (-3))])) "\x7b\"a\": -3\x7d" =
        (false, "Correct, but not fully simplified") := by
  refine ⟨fun ds h1 h2 hz0 => ?_, rfl, by decide, by decide, by decide, by decide⟩
  obtain ⟨d, rest, rfl⟩ := List.exists_cons_of_ne_nil h1
  have hz : d ≠ '0' := by
    simp only [List.head?, ne_eq, Option.some.injEq] at hz0
    exact hz0
  have hparse := parseFull_neg d rest h2 hz
  have hev : safe_eval (String.mk ('-' :: d :: rest)) =
      .ok (.int (-(Int.ofNat (numVal (d :: rest))))) := by
    unfold safe_eval
    rw [hparse]
    exact evalE_neg_num _
  have hcomp : safe_compile (String.mk ('-' :: d :: rest)) =
      .unaryOp .usub (.num (Int.ofNat (numVal (d :: rest)))) := by
    unfold safe_compile
    rw [hparse]
  unfold SingletonForwardProblem.check_answer
  rw [hev, hcomp]
  simp [resultEq, pyEq_int_self, isinstanceTy]

/-- Witness for C10 at the digits `"3"`: the candidate `"-3"`. -/
theorem C10_witness :
    SingletonForwardProblem.check_answer .num
      (.ok (.int (-(Int.ofNat (numVal [Char.ofNat 51]))))) (String.mk ['-', Char.ofNat 51]) =
      (false, "Correct, but not fully simplified") :=
  C10_negative_literals.1 [Char.ofNat 51] (by decide) (by decide) (by decide)

/-!
### Lemmas about the instantiation engine
-/

/-- Template text free of brace characters. -/
def noBrace (l : List Char) : Bool := l.all (fun c => !(c = lbrace || c = rbrace))

theorem escapeLC_of_noBrace {l : List Char} (h : noBrace l = true) : escapeLC l = l := by
  induction l with
  | nil => rfl
  | cons c cs ih =>
    simp only [noBrace, List.all_cons, Bool.and_eq_true, Bool.not_eq_true',
      Bool.or_eq_false_iff, decide_eq_false_iff_not] at h
    simp only [escapeLC, if_neg h.1.1, if_neg h.1.2]
    rw [ih]
    · rfl
    · simp only [noBrace]
      exact h.2

theorem collapsePair_of_all_ne {b : Char} {l : List Char}
    (h : l.all (fun c => !(c = b)) = true) : collapsePair b l = l := by
  induction l with
  | nil => rfl
  | cons c cs ih =>
    simp only [List.all_cons, Bool.and_eq_true, Bool.not_eq_true',
      decide_eq_false_iff_not] at h
    rw [collapsePair.eq_def]
    simp only [h.1, if_false]
    rw [ih h.2]

theorem unescapeLC_of_noBrace {l : List Char} (h : noBrace l = true) :
    unescapeLC l = l := by
  have h1 : l.all (fun c => !(c = lbrace)) = true := by
    simp only [noBrace, List.all_eq_true] at h ⊢
    intro x hx
    have := h x hx
    simp only [Bool.not_eq_true', Bool.or_eq_false_iff] at this
    simp [this.1]
  have h2 : l.all (fun c => !(c = rbrace)) = true := by
    simp only [noBrace, List.all_eq_true] at h ⊢
    intro x hx
    have := h x hx
    simp only [Bool.not_eq_true', Bool.or_eq_false_iff] at this
    simp [this.2]
  unfold unescapeLC
  rw [collapsePair_of_all_ne h1, collapsePair_of_all_ne h2]

theorem fparseGo_of_noBrace {l : List Char} (h : noBrace l = true) (acc : List Char) :
    fparseGo l (.lit acc) = some (litTail (acc ++ l)) := by
  induction l generalizing acc with
  | nil =>
    rw [List.append_nil]
    rfl
  | cons c cs ih =>
    simp only [noBrace, List.all_cons, Bool.and_eq_true, Bool.not_eq_true',
      Bool.or_eq_false_iff, decide_eq_false_iff_not] at h
    rw [fparseGo.eq_def]
    simp only [h.1.1, h.1.2, if_false]
    rw [ih (by simp only [noBrace]; exact h.2) (acc ++ [c])]
    simp

theorem onePass_litTail (corpus : Corpus) (tape : List Nat) (t : List Char) :
    onePass corpus tape (litTail t) = .ok (escapeLC t) tape := by
  cases t with
  | nil => rfl
  | cons c cs =>
    show onePass corpus tape [(c :: cs, none)] = _
    simp [onePass]

theorem litTail_all_none (t : List Char) :
    (litTail t).all (fun g => g.2.isNone) = true := by
  cases t <;> simp [litTail]

/-!
### C7: identity on placeholder-free templates (corrected)

`instantiate` is the identity on templates with no brace characters
at all, but not on placeholder-free templates containing escaped
doubled braces: the final unescaping pass collapses those.
-/

/-- C7 counterexample: the template consisting of an escaped doubled
open brace is placeholder-free (its parse is one literal segment),
yet `instantiate` returns the single collapsed brace, not the
template itself. -/
theorem C7_counterexample :
    fparse "\x7b\x7b".data = some [([lbrace], none)]
    ∧ instantiate "\x7b\x7b" [] 1 [] = some "\x7b"
    ∧ ("\x7b" : String) ≠ "\x7b\x7b" := by
  refine ⟨rfl, rfl, by decide⟩

/-- C7 as amended: for every template containing only literal text
with no brace characters (so in particular no placeholders),
`instantiate` returns the template unchanged, for every corpus, tape
and positive fuel; a placeholder-free template with escaped doubled
braces is instead returned with each doubled brace collapsed. -/
theorem C7_amended_identity_on_literal (t : String) (corpus : Corpus) (fuel : Nat)
    (tape : List Nat) (h : noBrace t.data = true) :
    instantiate t corpus (fuel+1) tape = some t := by
  obtain ⟨l⟩ := t
  have hf : fparse l = some (litTail l) := fparseGo_of_noBrace h []
  have hesc : escapeLC l = l := escapeLC_of_noBrace h
  unfold instantiate
  show (instAux corpus l (fuel+1) l tape).map String.mk = _
  simp only [instAux, hf]
  rw [onePass_litTail, hesc]
  simp only [hf, litTail_all_none, if_true]
  simp [unescapeLC_of_noBrace h]

/-- Witness for C7 (amended) at a concrete literal template. -/
theorem C7_amended_witness : instantiate "hello" [] 1 [] = some "hello" :=
  C7_amended_identity_on_literal "hello" [] 0 [] (by decide)

/-!
### C8: determinism and no remaining placeholders
-/

/-- Any successful run of the instantiation loop returns the
unescaping of a string whose format parse has no placeholder left:
the loop's exit condition. -/
theorem instAux_placeholder_free :
    ∀ (fuel : Nat) (corpus : Corpus) (orig expr : List Char) (tape : List Nat)
      (res : List Char),
      instAux corpus orig fuel expr tape = some res →
      ∃ pre segs, fparse pre = some segs
        ∧ segs.all (fun g => g.2.isNone) = true ∧ res = unescapeLC pre := by
  intro fuel
  induction fuel with
  | zero =>
    intro corpus orig expr tape res h
    exact absurd h (by simp [instAux])
  | succ n ih =>
    intro corpus orig expr tape res h
    simp only [instAux] at h
    split at h
    · exact absurd h (by simp)
    · rename_i segs hf
      split at h
      · exact absurd h (by simp)
      · rename_i tape1 hp
        exact ih corpus orig orig tape1 res h
      · rename_i next tape1 hp
        split at h
        · exact absurd h (by simp)
        · rename_i segs2 hf2
          split at h
          · rename_i hall
            exact ⟨next, segs2, hf2, hall, (Option.some.inj h).symm⟩
          · exact ih corpus orig next tape1 res h

/-- C8: for a fixed corpus, `instantiate` is a function of its seed
template, fuel and random tape — two runs with equal tapes agree —
and a returned string has zero remaining placeholders: it is the
unescaping of a final working expression whose format parse is all
literal. -/
theorem C8_deterministic_and_placeholder_free :
    (∀ (t : String) (corpus : Corpus) (fuel : Nat) (tape1 tape2 : List Nat),
      tape1 = tape2 →
        instantiate t corpus fuel tape1 = instantiate t corpus fuel tape2)
    ∧ (∀ (t : String) (corpus : Corpus) (fuel : Nat) (tape : List Nat) (out : String),
      instantiate t corpus fuel tape = some out →
      ∃ pre segs, fparse pre = some segs
        ∧ segs.all (fun g => g.2.isNone) = true
        ∧ out = String.mk (unescapeLC pre)) := by
  refine ⟨fun t corpus fuel tape1 tape2 h => by rw [h],
    fun t corpus fuel tape out h => ?_⟩
  unfold instantiate at h
  cases hi : instAux corpus t.data fuel t.data tape with
  | none => rw [hi] at h; simp at h
  | some res =>
    rw [hi] at h
    simp only [Option.map_some', Option.some.injEq] at h
    obtain ⟨pre, segs, h1, h2, h3⟩ :=
      instAux_placeholder_free fuel corpus t.data t.data tape res hi
    exact ⟨pre, segs, h1, h2, by rw [← h, h3]⟩

/-- Witness for C8 at a concrete corpus and tape: the template
`"\x7bnum\x7d+\x7bnum\x7d"` instantiates to `"1+2"`. -/
theorem C8_witness :
    instantiate "\x7bnum\x7d+\x7bnum\x7d" [("num", ["1", "2"])] 1 [0, 1] =
      instantiate "\x7bnum\x7d+\x7bnum\x7d" [("num", ["1", "2"])] 1 [0, 1]
    ∧ ∃ pre segs, fparse pre = some segs
        ∧ segs.all (fun g => g.2.isNone) = true
        ∧ "1+2" = String.mk (unescapeLC pre) :=
  ⟨C8_deterministic_and_placeholder_free.1 _ _ 1 [0, 1] [0, 1] rfl,
   C8_deterministic_and_placeholder_free.2 "\x7bnum\x7d+\x7bnum\x7d"
     [("num", ["1", "2"])] 1 [0, 1] "1+2" rfl⟩

/-!
### C4: a named-binding mismatch restarts from the seed
-/

/-- Any successful run of the retrying loop is reproduced by some
mismatch-free run: either a clean continuation from the current
working expression, or a clean run from the original seed (with the
tape as of some restart point). -/
theorem instAux_to_noRetry :
    ∀ (fuel : Nat) (corpus : Corpus) (orig expr : List Char) (tape : List Nat)
      (out : List Char),
      instAux corpus orig fuel expr tape = some out →
      (∃ f2, instAuxNoRetry corpus f2 expr tape = some out)
      ∨ (∃ f2 t2, instAuxNoRetry corpus f2 orig t2 = some out) := by
  intro fuel
  induction fuel with
  | zero =>
    intro corpus orig expr tape out h
    exact absurd h (by simp [instAux])
  | succ n ih =>
    intro corpus orig expr tape out h
    simp only [instAux] at h
    split at h
    · exact absurd h (by simp)
    · rename_i segs hf
      split at h
      · exact absurd h (by simp)
      · rename_i tape1 hp
        rcases ih corpus orig orig tape1 out h with ⟨f2, hno⟩ | ⟨f2, t2, hno⟩
        · exact .inr ⟨f2, tape1, hno⟩
        · exact .inr ⟨f2, t2, hno⟩
      · rename_i next tape1 hp
        split at h
        · exact absurd h (by simp)
        · rename_i segs2 hf2
          split at h
          · rename_i hall
            refine .inl ⟨1, ?_⟩
            simp only [instAuxNoRetry, hf, hp, hf2]
            rw [if_pos hall]
            exact h
          · rename_i hall
            rcases ih corpus orig next tape1 out h with ⟨f2, hno⟩ | hright
            · refine .inl ⟨f2 + 1, ?_⟩
              simp only [instAuxNoRetry, hf, hp, hf2]
              rw [if_neg hall]
              exact hno
            · exact .inr hright

/-- C4: when a named binding's chosen sub-template carries a
placeholder of the wrong category, the engine discards the whole
partial expansion and restarts from the original top-level seed (the
loop equation below), and consequently every string `instantiate`
returns is produced by a mismatch-free full expansion of the seed —
no fragment of a mismatched sub-template survives into the result. -/
theorem C4_restart_from_seed :
    (∀ (corpus : Corpus) (orig expr : List Char) (fuel : Nat) (tape : List Nat)
        (segs : List Seg) (tape1 : List Nat),
      fparse expr = some segs → onePass corpus tape segs = .mismatch tape1 →
      instAux corpus orig (fuel+1) expr tape = instAux corpus orig fuel orig tape1)
    ∧ (∀ (seed : String) (corpus : Corpus) (fuel : Nat) (tape : List Nat) (out : String),
      instantiate seed corpus fuel tape = some out →
      ∃ f2 t2, (instAuxNoRetry corpus f2 seed.data t2).map String.mk = some out) := by
  refine ⟨fun corpus orig expr fuel tape segs tape1 h1 h2 => ?_,
    fun seed corpus fuel tape out h => ?_⟩
  · simp only [instAux, h1, h2]
  · unfold instantiate at h
    cases hi : instAux corpus seed.data fuel seed.data tape with
    | none => rw [hi] at h; simp at h
    | some res =>
      rw [hi] at h
      simp only [Option.map_some', Option.some.injEq] at h
      rcases instAux_to_noRetry fuel corpus seed.data seed.data tape res hi with
        ⟨f2, hno⟩ | ⟨f2, t2, hno⟩
      · exact ⟨f2, tape, by rw [hno, Option.map_some', h]⟩
      · exact ⟨f2, t2, by rw [hno, Option.map_some', h]⟩

/-- Witness for C4: a corpus whose first choice for the binding
`\x7bcomp:elem:i\x7d` is the mismatching sub-template
`"\x7bwrong\x7d"`; the pass mismatches, the loop restarts from the
seed, and the final result `"i"` is also reached by a mismatch-free
run. -/
theorem C4_witness :
    instAux [("comp", ["\x7bwrong\x7d", "\x7belem\x7d"])] "\x7bcomp:elem:i\x7d".data
        (1+1) "\x7bcomp:elem:i\x7d".data [0, 1] =
      instAux [("comp", ["\x7bwrong\x7d", "\x7belem\x7d"])] "\x7bcomp:elem:i\x7d".data
        1 "\x7bcomp:elem:i\x7d".data [1]
    ∧ ∃ f2 t2,
        (instAuxNoRetry [("comp", ["\x7bwrong\x7d", "\x7belem\x7d"])] f2
          "\x7bcomp:elem:i\x7d".data t2).map String.mk = some "i" :=
  ⟨C4_restart_from_seed.1 _ _ _ 1 [0, 1]
      [(([] : List Char), some ("comp".data, "elem:i".data))] [1] rfl rfl,
   C4_restart_from_seed.2 "\x7bcomp:elem:i\x7d" _ 3 [0, 1] "i" rfl⟩

end Aylip